import Mathlib

/-!
Verification of the amazon-order-mcp server (`src/amazon_order_mcp.py`)
against its natural-language specification.

The Python module is shallowly embedded: the global mutable session cache
becomes an explicit `ServerState` threaded through the operations, the
external `amazonorders` provider becomes explicit parameters (a
`ProviderScript` describing what `AmazonSession.login()` does, and
fetch functions for order retrieval), environment variables become an
`Env` record of optional strings, Python exceptions become a `PyExc`
sum carried in `Except`, and JSON dictionaries become ordered
association lists of `JVal` (the `json.dumps` serialization itself is an
external collaborator per the spec, so results are compared at the
dictionary level).  Python truthiness on optional strings (`None` and
`""` are falsy) is modelled by `truthyS`; provider scalar/monetary
values are modelled as integers, with Python `str()` as `toString` and
falsiness as `= 0`.
-/

/-- Bool test that `n` is a leading segment of `hay` (character lists). -/
def startsWithChars : List Char → List Char → Bool
  | [], _ => true
  | _ :: _, [] => false
  | a :: as, b :: bs => a == b && startsWithChars as bs

/-- Bool test that `n` occurs contiguously inside `hay` (character lists). -/
def hasSubChars (n : List Char) : List Char → Bool
  | [] => startsWithChars n []
  | c :: t => startsWithChars n (c :: t) || hasSubChars n t

/-- Python's `needle in hay` substring test. -/
def containsSub (needle hay : String) : Bool :=
  hasSubChars needle.data hay.data

/-- Python's `str.lower()` (ASCII, as produced by this provider). -/
def lowerStr (s : String) : String :=
  ⟨s.data.map Char.toLower⟩

/-- Python truthiness of an optional string: `None` and `""` are falsy. -/
def truthyS : Option String → Bool
  | none => false
  | some s => s != ""

/-- Python exceptions that can cross `get_orders_client`:
`OTPRequiredError`, `ValueError`, or any other provider exception.
`str(e)` is the carried message. -/
inductive PyExc where
  | otpRequiredError (msg : String)
  | valueError (msg : String)
  | other (msg : String)
  deriving Repr, DecidableEq

/-- `str(e)` on a `PyExc`. -/
def PyExc.msg : PyExc → String
  | .otpRequiredError m => m
  | .valueError m => m
  | .other m => m

/-- `isinstance(e, OTPRequiredError)`. -/
def isOtpExc : PyExc → Bool
  | .otpRequiredError _ => true
  | _ => false

/-- What one call to `MCPIOHandler.prompt` does: answer the provider's
prompt with a string, or raise. -/
inductive PromptOutcome where
  | answer (s : String)
  | raiseExc (e : PyExc)
  deriving Repr, DecidableEq

/-- `MCPIOHandler.__init__`: the stored `otp_code` and the
`otp_requested` flag. -/
structure MCPIOHandler where
  otp_code : Option String
  otp_requested : Bool
  deriving Repr, DecidableEq

/-- The OTP prompt pattern of `MCPIOHandler.prompt`:
`"otp" in msg.lower() or "code" in msg.lower() or "verification" in msg.lower()`. -/
def isOtpMsg (msg : String) : Bool :=
  containsSub "otp" (lowerStr msg) || containsSub "code" (lowerStr msg) ||
    containsSub "verification" (lowerStr msg)

/-- `MCPIOHandler.prompt(msg)`: on the OTP pattern, record
`otp_requested`, then answer with the stored code if truthy, else raise
`OTPRequiredError("OTP_REQUIRED")`; on any other message raise
`ValueError(f"Interactive prompt required: ...")`. -/
def MCPIOHandler.prompt (h : MCPIOHandler) (msg : String) :
    MCPIOHandler × PromptOutcome :=
  if isOtpMsg msg then
    let h' : MCPIOHandler := { h with otp_requested := true }
    match h.otp_code with
    | some c =>
        if c != "" then (h', .answer c)
        else (h', .raiseExc (.otpRequiredError "OTP_REQUIRED"))
    | none => (h', .raiseExc (.otpRequiredError "OTP_REQUIRED"))
  else
    (h, .raiseExc (.valueError ("Interactive prompt required: " ++ msg)))

/-- What the external `AmazonSession.login()` would do once all its
interactive prompts are answered: return, or raise with a message. -/
inductive ProviderOutcome where
  | success
  | raiseMsg (msg : String)
  deriving Repr, DecidableEq

/-- Behaviour of one external `AmazonSession.login()` call: the
interactive prompts it issues (in order, each must be answered for the
next to be reached) followed by its final outcome. -/
structure ProviderScript where
  prompts : List String
  outcome : ProviderOutcome
  deriving Repr, DecidableEq

/-- Feed the provider's prompts through the handler until one raises or
all are answered. -/
def runPrompts (h : MCPIOHandler) : List String → MCPIOHandler × Option PyExc
  | [] => (h, none)
  | m :: rest =>
    match h.prompt m with
    | (h', .answer _) => runPrompts h' rest
    | (h', .raiseExc e) => (h', some e)

/-- `_session.login()` under the interceptor: prompts first, then the
provider's own outcome. Returns the final handler state and the raised
exception, if any. -/
def sessionLogin (script : ProviderScript) (h : MCPIOHandler) :
    MCPIOHandler × Option PyExc :=
  match runPrompts h script.prompts with
  | (h', some e) => (h', some e)
  | (h', none) =>
    match script.outcome with
    | .success => (h', none)
    | .raiseMsg m => (h', some (.other m))

/-- The relevant process environment: `AMAZON_USERNAME`,
`AMAZON_PASSWORD`, `AMAZON_OTP_SECRET`. -/
structure Env where
  username : Option String
  password : Option String
  otp_secret : Option String
  deriving Repr, DecidableEq

/-- `'set' if v else 'NOT SET'`. -/
def setOrNot (v : Option String) : String :=
  if truthyS v then "set" else "NOT SET"

/-- The message of the `ValueError` raised by `get_orders_client` when
credentials are missing. -/
def configMsg (env : Env) : String :=
  "AMAZON_USERNAME and AMAZON_PASSWORD environment variables must be set. " ++
    "Found: username=" ++ setOrNot env.username ++ ", password=" ++
    setOrNot env.password

/-- The module-global mutable cache: `_session`, `_orders_client`
(tracked by presence), and `_pending_otp_request`. -/
structure ServerState where
  sessionSet : Bool
  clientSet : Bool
  pending_otp_request : Bool
  deriving Repr, DecidableEq

/-- Result of `get_orders_client`: the returned-or-raised outcome, the
global state afterwards, and how many times the external provider's
`login()` was invoked during the call. -/
structure GocOut where
  result : Except PyExc Unit
  st : ServerState
  loginCalls : Nat
  deriving Repr

/-- `get_orders_client(otp_code, debug)`: fast path on a cached client
with no pending OTP; otherwise read credentials (raising `ValueError`
if either is falsy), build a fresh handler and session, and run the
provider's `login()`, classifying failures exactly as the source does. -/
def get_orders_client (env : Env) (script : ProviderScript)
    (otp_code : Option String) (debug : Bool) (st : ServerState) : GocOut :=
  if st.clientSet && !st.pending_otp_request then
    ⟨.ok (), st, 0⟩
  else if !truthyS env.username || !truthyS env.password then
    ⟨.error (.valueError (configMsg env)), st, 0⟩
  else
    let _ := debug
    let h : MCPIOHandler := ⟨otp_code, false⟩
    let st1 : ServerState := { st with sessionSet := true }
    match sessionLogin script h with
    | (_, none) =>
        ⟨.ok (), { st1 with pending_otp_request := false, clientSet := true }, 1⟩
    | (h', some e) =>
        match e with
        | .otpRequiredError _ =>
            ⟨.error e, { st1 with pending_otp_request := true }, 1⟩
        | _ =>
            ⟨.error e,
              { st1 with
                pending_otp_request := st1.pending_otp_request || h'.otp_requested },
              1⟩

/-- The `OTP_REQUIRED:` guidance string returned by `amazon_login`. -/
def otpRequiredReply : String :=
  "OTP_REQUIRED: Amazon 2FA is enabled and requires a one-time password. " ++
    "ASK THE USER for their current 6-digit OTP code from their authenticator app, " ++
    "then call amazon_login again with the otp_code parameter."

/-- The `AUTH_FAILED:` diagnostic returned by `amazon_login` when the
provider reports exhausted authentication attempts. -/
def authFailedMsg (otp_code : Option String) (debug : Bool) (tb em : String) :
    String :=
  "AUTH_FAILED: Could not authenticate with Amazon.\n" ++
    "OTP code provided: " ++ (if truthyS otp_code then "yes" else "no") ++ "\n" ++
    "Possible causes:\n" ++
    "1. Invalid username/password in environment variables\n" ++
    "2. Amazon is blocking automated login (CAPTCHA)\n" ++
    "3. 2FA is required - ASK THE USER for their current 6-digit OTP code\n" ++
    "\nDebug info:\n" ++ (if debug then tb else em)

/-- The `amazon_login` tool. `tb` stands for `traceback.format_exc()`,
an opaque diagnostic string. Returns the reply string, the new global
state, and the number of provider `login()` invocations. -/
def amazon_login (env : Env) (script : ProviderScript) (otp_code : Option String)
    (debug : Bool) (tb : String) (st : ServerState) :
    String × ServerState × Nat :=
  let st0 : ServerState := { st with clientSet := false, sessionSet := false }
  let g := get_orders_client env script otp_code debug st0
  match g.result with
  | .ok _ => ("Successfully logged in to Amazon.", g.st, g.loginCalls)
  | .error (.otpRequiredError _) =>
      (otpRequiredReply, { g.st with pending_otp_request := true }, g.loginCalls)
  | .error e =>
      let em := e.msg
      if containsSub "Authentication attempts exhausted" em then
        (authFailedMsg otp_code debug tb em, g.st, g.loginCalls)
      else
        ("Login failed: " ++ em ++ "\n\nTraceback:\n" ++
          (if debug then tb else ""), g.st, g.loginCalls)

/-- The `NOT_LOGGED_IN:` guidance returned by `_handle_auth_error`. -/
def notLoggedInMsg : String :=
  "NOT_LOGGED_IN: You must call amazon_login first. " ++
    "ASK THE USER for their current 6-digit OTP code from their authenticator app, " ++
    "then call amazon_login with the otp_code parameter."

/-- The short `AUTH_FAILED:` guidance returned by `_handle_auth_error`. -/
def authFailedShort : String :=
  "AUTH_FAILED: Call amazon_login first. If 2FA is enabled, " ++
    "ASK THE USER for their current 6-digit OTP code from their authenticator app."

/-- `_handle_auth_error(e)`. -/
def handle_auth_error (e : PyExc) : String :=
  let em := e.msg
  if containsSub "OTP_REQUIRED" em || isOtpExc e then
    notLoggedInMsg
  else if containsSub "AMAZON_USERNAME" em || containsSub "AMAZON_PASSWORD" em then
    "CONFIG_ERROR: " ++ em
  else if containsSub "Authentication attempts exhausted" em then
    authFailedShort
  else
    "Error: " ++ em

/-- A JSON value, as built by the serialization helpers before
`json.dumps` (an external collaborator) renders it. Objects are ordered
key/value lists, mirroring Python dict insertion order. -/
inductive JVal where
  | null
  | s (v : String)
  | n (v : Int)
  | obj (fields : List (String × JVal))
  | arr (elems : List JVal)

/-- `item.seller` on a provider item: only its `name` is read. -/
structure Seller where
  name : Option String
  deriving Repr, DecidableEq

/-- `order.recipient` on a provider order: `name` and `address` are read
with `getattr(..., None)`. -/
structure Recipient where
  name : Option String
  address : Option String
  deriving Repr, DecidableEq

/-- A provider `Item` object, restricted to the attributes
`item_to_dict` and the search loop read. Monetary values are modelled
as integers (`none` = Python `None`, `some 0` = a falsy zero amount). -/
structure Item where
  title : Option String
  price : Option Int
  quantity : Int
  link : Option String
  seller : Option Seller
  condition : Option String
  deriving Repr, DecidableEq

/-- A provider `Order` object, restricted to the attributes
`order_to_dict` reads. `order_placed_date` is modelled by `str(date)`
when the date object is present (date objects are always truthy). -/
structure Order where
  order_number : String
  order_placed_date : Option String
  grand_total : Option Int
  subtotal : Option Int
  shipping_total : Option Int
  estimated_tax : Option Int
  total_before_tax : Option Int
  refund_total : Option Int
  promotion_applied : Option Int
  coupon_savings : Option Int
  subscription_discount : Option Int
  multibuy_discount : Option Int
  amazon_discount : Option Int
  reward_points : Option Int
  gift_card : Option Int
  payment_method : Option Int
  payment_method_last_4 : Option Int
  recipient : Option Recipient
  items : Option (List Item)
  deriving Repr, DecidableEq

/-- `None` becomes JSON null, a present string is kept as-is (this is
how `item_to_dict` passes `title`, `link`, `seller.name`, `condition`
and how the recipient sub-dict passes `name`/`address`). -/
def optStrJ : Option String → JVal
  | some v => .s v
  | none => .null

/-- `str(v) if v else None` on an optional monetary value: the Python
truthiness test drops both `None` and zero. -/
def moneyJ : Option Int → JVal
  | some v => if v != 0 then .s (toString v) else .null
  | none => .null

/-- `item_to_dict(item)`: a dict that always carries all six keys,
with `None` (JSON null) standing in for absent values. -/
def item_to_dict (item : Item) : List (String × JVal) :=
  [("title", optStrJ item.title),
   ("price", moneyJ item.price),
   ("quantity", .n item.quantity),
   ("link", optStrJ item.link),
   ("seller",
     match item.seller with
     | some sl => optStrJ sl.name
     | none => .null),
   ("condition", optStrJ item.condition)]

/-- The `optional_fields` list of `order_to_dict`, paired with the
attribute values `getattr` reads off the order. -/
def optionalFieldVals (o : Order) : List (String × Option Int) :=
  [("subtotal", o.subtotal), ("shipping_total", o.shipping_total),
   ("estimated_tax", o.estimated_tax), ("total_before_tax", o.total_before_tax),
   ("refund_total", o.refund_total), ("promotion_applied", o.promotion_applied),
   ("coupon_savings", o.coupon_savings),
   ("subscription_discount", o.subscription_discount),
   ("multibuy_discount", o.multibuy_discount),
   ("amazon_discount", o.amazon_discount), ("reward_points", o.reward_points),
   ("gift_card", o.gift_card), ("payment_method", o.payment_method),
   ("payment_method_last_4", o.payment_method_last_4)]

/-- One step of the optional-field loop: `if value is not None:
result[field] = str(value)`. -/
def entryFn (p : String × Option Int) : Option (String × JVal) :=
  p.2.map (fun x => (p.1, JVal.s (toString x)))

/-- The entries the optional-field loop adds, in loop order. -/
def optionalEntries (o : Order) : List (String × JVal) :=
  (optionalFieldVals o).filterMap entryFn

/-- The initial `result` dict of `order_to_dict`: `order_number`
always, `order_placed_date` and `grand_total` guarded by truthiness but
emitted as null when falsy. -/
def baseEntries (o : Order) : List (String × JVal) :=
  [("order_number", .s o.order_number),
   ("order_placed_date", optStrJ o.order_placed_date),
   ("grand_total", moneyJ o.grand_total)]

/-- The `recipient` entry: added only when `order.recipient` is truthy. -/
def recipientEntries (o : Order) : List (String × JVal) :=
  match o.recipient with
  | some r =>
      [("recipient", .obj [("name", optStrJ r.name),
                           ("address", optStrJ r.address)])]
  | none => []

/-- The `items` entry: added only when `order.items` is a truthy
(non-empty) list. -/
def itemsEntries (o : Order) : List (String × JVal) :=
  match o.items with
  | some its =>
      if its.isEmpty then []
      else [("items", .arr (its.map (fun i => .obj (item_to_dict i))))]
  | none => []

/-- `order_to_dict(order)`: the four groups in source order. -/
def order_to_dict (o : Order) : List (String × JVal) :=
  baseEntries o ++ (optionalEntries o ++ (recipientEntries o ++ itemsEntries o))

/-- First value stored under key `k` in a dict (Python dict keys here
are unique, so this is dict lookup); `none` means the key is absent. -/
def getKey : List (String × JVal) → String → Option JVal
  | [], _ => none
  | p :: t, k => if p.1 == k then some p.2 else getKey t k

/-- The time-selection argument the tools put into `kwargs`. -/
inductive TimeSel where
  | timeFilter (s : String)
  | year (y : Int)
  deriving Repr, DecidableEq

/-- The `kwargs` passed to the provider's `get_order_history`. -/
structure HistoryQuery where
  full_details : Bool
  sel : TimeSel
  deriving Repr, DecidableEq

/-- `if time_filter: ... elif year: ... else: year = datetime.now().year`
(Python truthiness: `""` and `0` fall through). -/
def resolveTimeSel (time_filter : Option String) (year : Option Int)
    (nowYear : Int) : TimeSel :=
  match time_filter with
  | some tf =>
      if tf != "" then .timeFilter tf
      else
        match year with
        | some y => if y != 0 then .year y else .year nowYear
        | none => .year nowYear
  | none =>
      match year with
      | some y => if y != 0 then .year y else .year nowYear
      | none => .year nowYear

/-- What a tool call produces at the MCP boundary: a plain string, a
`json.dumps` of a JSON value, or an exception that escaped the tool. -/
inductive ToolResult where
  | str (s : String)
  | json (v : JVal)
  | raised (e : String)

/-- The `amazon_get_order_history` tool. `fetchH` models the provider's
`client.get_order_history(**kwargs)`; note that in the source it is
called outside the `try` block. -/
def amazon_get_order_history (env : Env) (script : ProviderScript)
    (fetchH : HistoryQuery → Except String (List Order))
    (year : Option Int) (time_filter : Option String) (full_details : Bool)
    (nowYear : Int) (st : ServerState) : ToolResult × ServerState × Nat :=
  let g := get_orders_client env script none false st
  match g.result with
  | .error e => (.str (handle_auth_error e), g.st, g.loginCalls)
  | .ok _ =>
    match fetchH ⟨full_details, resolveTimeSel time_filter year nowYear⟩ with
    | .ok orders =>
        (.json (.arr (orders.map (fun o => .obj (order_to_dict o)))),
          g.st, g.loginCalls)
    | .error m => (.raised m, g.st, g.loginCalls)

/-- The `amazon_get_order` tool. `fetchO` models `client.get_order`,
called outside the `try` block in the source. -/
def amazon_get_order (env : Env) (script : ProviderScript)
    (fetchO : String → Except String Order) (order_id : String)
    (st : ServerState) : ToolResult × ServerState × Nat :=
  let g := get_orders_client env script none false st
  match g.result with
  | .error e => (.str (handle_auth_error e), g.st, g.loginCalls)
  | .ok _ =>
    match fetchO order_id with
    | .ok o => (.json (.obj (order_to_dict o)), g.st, g.loginCalls)
    | .error m => (.raised m, g.st, g.loginCalls)

/-- The inner condition of the search loop:
`if item.title and search_lower in item.title.lower()`. -/
def itemMatches (searchLower : String) (it : Item) : Bool :=
  match it.title with
  | some t => t != "" && containsSub searchLower (lowerStr t)
  | none => false

/-- One order passes the search filter when it has a truthy `items`
list and some item matches (the source loop appends and breaks at the
first match). -/
def orderMatches (searchLower : String) (o : Order) : Bool :=
  match o.items with
  | some its => !its.isEmpty && its.any (itemMatches searchLower)
  | none => false

/-- The `amazon_search_orders` tool: always queries with
`full_details=True`, then filters orders by case-insensitive substring
match of the term against item titles. -/
def amazon_search_orders (env : Env) (script : ProviderScript)
    (fetchH : HistoryQuery → Except String (List Order))
    (search_term : String) (year : Option Int) (time_filter : Option String)
    (nowYear : Int) (st : ServerState) : ToolResult × ServerState × Nat :=
  let g := get_orders_client env script none false st
  match g.result with
  | .error e => (.str (handle_auth_error e), g.st, g.loginCalls)
  | .ok _ =>
    match fetchH ⟨true, resolveTimeSel time_filter year nowYear⟩ with
    | .ok orders =>
        let searchLower := lowerStr search_term
        let matching := orders.filter (orderMatches searchLower)
        (.json (.arr (matching.map (fun o => .obj (order_to_dict o)))),
          g.st, g.loginCalls)
    | .error m => (.raised m, g.st, g.loginCalls)

/-! ### Concrete fixtures used by witnesses and counterexamples -/

/-- Environment with both credentials set. -/
def envFull : Env := ⟨some "alice", some "hunter2", none⟩

/-- Environment with neither credential set. -/
def envNone : Env := ⟨none, none, none⟩

/-- Environment with the password missing. -/
def envNoPass : Env := ⟨some "alice", none, none⟩

/-- Environment with the username missing. -/
def envNoUser : Env := ⟨none, some "hunter2", none⟩

/-- The initial state: nothing cached, no pending OTP. -/
def st0 : ServerState := ⟨false, false, false⟩

/-- A state with a cached session and order client (after a successful
login). -/
def stAuth : ServerState := ⟨true, true, false⟩

/-- A provider whose `login()` succeeds without prompting. -/
def scriptOk : ProviderScript := ⟨[], .success⟩

/-- A provider whose `login()` issues one OTP prompt, then succeeds. -/
def scriptOtp : ProviderScript := ⟨["Please enter the OTP sent to your device"], .success⟩

/-- A provider whose `login()` issues one OTP prompt and then fails
with a generic error. -/
def scriptOtpFail : ProviderScript :=
  ⟨["Please enter the OTP sent to your device"], .raiseMsg "login flow broke"⟩

/-- An order with the given number and items and every optional
attribute equal to `None`. -/
def mkOrder (num : String) (its : Option (List Item)) : Order where
  order_number := num
  order_placed_date := none
  grand_total := none
  subtotal := none
  shipping_total := none
  estimated_tax := none
  total_before_tax := none
  refund_total := none
  promotion_applied := none
  coupon_savings := none
  subscription_discount := none
  multibuy_discount := none
  amazon_discount := none
  reward_points := none
  gift_card := none
  payment_method := none
  payment_method_last_4 := none
  recipient := none
  items := its

/-- An item with only the required attributes (`title`, `quantity`). -/
def minimalItem : Item := ⟨some "Widget", none, 1, none, none, none⟩

/-- An order with only required fields set, containing one minimal item. -/
def minimalOrder : Order := mkOrder "111-1234567-1234567" (some [minimalItem])

/-- An order whose provider-supplied monetary values are the falsy 0. -/
def orderZero : Order :=
  { mkOrder "222-0000000-0000000" none with grand_total := some 0, subtotal := some 0 }

/-- An item whose price is the falsy 0. -/
def itemZero : Item := ⟨some "Freebie", some 0, 1, none, none, none⟩

/-- Search fixture: the one order that contains "Wireless Headphones". -/
def orderHeadphones : Order :=
  mkOrder "A-1" (some [⟨some "Wireless Headphones", some 199, 1, none, none, none⟩])

/-- Search fixture: an order with a non-matching item. -/
def orderBook : Order :=
  mkOrder "A-2" (some [⟨some "A Book About Proofs", some 30, 1, none, none, none⟩])

/-- Search fixture: an order with another non-matching item. -/
def orderSocks : Order :=
  mkOrder "A-3" (some [⟨some "Wool Socks", some 12, 2, none, none, none⟩])

/-- The three-order search fixture from the spec's testable property. -/
def searchFixture : List Order := [orderHeadphones, orderBook, orderSocks]

example :
    (get_orders_client envFull scriptOk none false st0).loginCalls = 1 := rfl

example :
    (amazon_login envFull scriptOtp none false "" st0).1 = otpRequiredReply := rfl

/-! ### C1 — queries while logged out -/

/-- C1 counterexample: with no cached order client ("LoggedOut") but
credentials set and a provider whose `login()` succeeds, calling
`amazon_get_order_history` invokes the external provider's `login()`
once (count 1, not 0) and returns order data rather than a
`NotAuthenticated` outcome.  This refutes the claim that every query
operation issued while logged out returns `NotAuthenticated` without
the provider's `login()` ever being invoked. -/
theorem C1_counterexample :
    (amazon_get_order_history envFull scriptOk (fun _ => .ok []) none none
        false 2024 st0).2.2 = 1
    ∧ (amazon_get_order_history envFull scriptOk (fun _ => .ok []) none none
        false 2024 st0).1 = ToolResult.json (.arr []) :=
  ⟨rfl, rfl⟩

/-! ### C2 — exceptions crossing the tool boundary -/

/-- C2 counterexample: with an authenticated cached client, a provider
failure during `client.get_order` (which the source calls outside its
`try` block) escapes `amazon_get_order` as an exception instead of
being converted to a structured string. -/
theorem C2_counterexample :
    (amazon_get_order envFull scriptOk
        (fun _ => .error "ConnectionError: network unreachable")
        "111-1234567-1234567" stAuth).1
      = ToolResult.raised "ConnectionError: network unreachable" := rfl

/-! ### C3 — serialization of orders with only required fields -/

/-- C3 counterexample: an order with only required fields set (and one
item with only required fields) serializes with null placeholders, not
with zero optional keys: `order_placed_date` and `grand_total` are
emitted as null, and the item dict carries null `price`, `link`,
`seller`, `condition`. -/
theorem C3_counterexample :
    order_to_dict minimalOrder
      = [("order_number", JVal.s "111-1234567-1234567"),
         ("order_placed_date", JVal.null),
         ("grand_total", JVal.null),
         ("items", JVal.arr [JVal.obj
            [("title", JVal.s "Widget"), ("price", JVal.null),
             ("quantity", JVal.n 1), ("link", JVal.null),
             ("seller", JVal.null), ("condition", JVal.null)]])] := rfl

/-! ### C4 — login with missing credentials -/

/-- C4 counterexample: `amazon_login` with both credentials unset
returns the generic `Login failed:` wrapper, not a string carrying the
spec's `CONFIG_ERROR` tag — so the login operation does not return a
tagged ConfigError outcome (its embedded message does identify the
unset credentials; see the amended theorem). -/
theorem C4_counterexample :
    (amazon_login envNone scriptOk none false "" st0).1
      = "Login failed: AMAZON_USERNAME and AMAZON_PASSWORD environment " ++
        "variables must be set. Found: username=NOT SET, password=NOT SET" ++
        "\n\nTraceback:\n"
    ∧ containsSub "CONFIG_ERROR" (amazon_login envNone scriptOk none false "" st0).1
        = false :=
  ⟨rfl, rfl⟩

/-! ### Dictionary-lookup lemmas -/

/-- Left-biased choice on lookup results, mirroring lookup over an
appended dict. -/
def orElseKey : Option JVal → Option JVal → Option JVal
  | some v, _ => some v
  | none, b => b

/-- `orElseKey` with a known-empty left side. -/
@[simp] theorem orElseKey_none_left (b : Option JVal) : orElseKey none b = b := rfl

/-- `orElseKey` with a known-present left side. -/
@[simp] theorem orElseKey_some_left (v : JVal) (b : Option JVal) :
    orElseKey (some v) b = some v := rfl

/-- Lookup distributes over append. -/
theorem getKey_append (a b : List (String × JVal)) (k : String) :
    getKey (a ++ b) k = orElseKey (getKey a k) (getKey b k) := by
  induction a with
  | nil => rfl
  | cons p t ih =>
    rw [List.cons_append]
    show (if p.1 == k then some p.2 else getKey (t ++ b) k) = _
    cases hp : p.1 == k with
    | false => simpa [getKey, hp] using ih
    | true => simp [getKey, hp]

/-- Lookup in the optional-field loop output, characterized by `find?`
over the field/value list. -/
theorem getKey_filterMap_entryFn (l : List (String × Option Int)) (k : String) :
    getKey (l.filterMap entryFn) k
      = (l.find? (fun p => p.1 == k && p.2.isSome)).bind
          (fun p => p.2.map (fun x => JVal.s (toString x))) := by
  induction l with
  | nil => rfl
  | cons p t ih =>
    rcases p with ⟨nm, v⟩
    cases v with
    | none =>
      rw [List.filterMap_cons]
      show getKey (t.filterMap entryFn) k = _
      simp [List.find?, ih]
    | some x =>
      rw [List.filterMap_cons]
      show (if nm == k then some (JVal.s (toString x))
            else getKey (t.filterMap entryFn) k) = _
      cases hp : nm == k with
      | false => simp [List.find?, hp, ih]
      | true => simp [List.find?, hp]

/-- The `recipient` entry never answers a lookup for another key. -/
theorem getKey_recipientEntries (o : Order) (k : String)
    (h : ("recipient" == k) = false) :
    getKey (recipientEntries o) k = none := by
  unfold recipientEntries
  cases o.recipient with
  | none => rfl
  | some r => simp [getKey, h]

/-- The `items` entry never answers a lookup for another key. -/
theorem getKey_itemsEntries (o : Order) (k : String)
    (h : ("items" == k) = false) :
    getKey (itemsEntries o) k = none := by
  unfold itemsEntries
  cases o.items with
  | none => rfl
  | some its =>
    cases its with
    | nil => rfl
    | cons a t => simp [getKey, h]

/-- Full characterization of `order_to_dict` lookups: base entries
first, then the optional-field loop (as a `find?`), then recipient and
items. -/
theorem getKey_order_full (o : Order) (k : String) :
    getKey (order_to_dict o) k
      = orElseKey (getKey (baseEntries o) k)
          (orElseKey
            (((optionalFieldVals o).find? (fun p => p.1 == k && p.2.isSome)).bind
              (fun p => p.2.map (fun x => JVal.s (toString x))))
            (orElseKey (getKey (recipientEntries o) k)
              (getKey (itemsEntries o) k))) := by
  show getKey (baseEntries o ++ (optionalEntries o ++ (recipientEntries o ++ itemsEntries o))) k = _
  rw [getKey_append, getKey_append, getKey_append,
      show optionalEntries o = (optionalFieldVals o).filterMap entryFn from rfl,
      getKey_filterMap_entryFn]

/-! ### C9 — falsy zero monetary values -/

/-- C9 counterexample: a zero-valued optional monetary field is *not*
omitted — the optional-field loop tests `is not None`, not truthiness,
so `subtotal = 0` is emitted as the string "0". -/
theorem C9_counterexample :
    getKey (order_to_dict orderZero) "subtotal" = some (JVal.s "0") := rfl

/-- C9 (amended): zero monetary values are treated as absent only where
the source tests truthiness — `order_to_dict` emits `grand_total` as
null when it is 0 and `item_to_dict` emits `price` as null when it is
0 — while the optional-field loop tests `is not None`, so a zero-valued
optional field such as `subtotal = 0` is emitted as the string "0"
rather than omitted. -/
theorem C9_amended (o : Order) (it : Item) :
    (o.grand_total = some 0 → getKey (order_to_dict o) "grand_total" = some JVal.null)
    ∧ (it.price = some 0 → getKey (item_to_dict it) "price" = some JVal.null)
    ∧ (o.subtotal = some 0 → getKey (order_to_dict o) "subtotal" = some (JVal.s "0")) := by
  refine ⟨fun hv => ?_, fun hv => ?_, fun hv => ?_⟩
  · rw [show getKey (order_to_dict o) "grand_total" = some (moneyJ o.grand_total)
        from rfl, hv]
    rfl
  · rw [show getKey (item_to_dict it) "price" = some (moneyJ it.price) from rfl, hv]
    rfl
  · rw [getKey_order_full, getKey_recipientEntries _ _ (by rfl),
        getKey_itemsEntries _ _ (by rfl)]
    simp [optionalFieldVals, List.find?, hv, baseEntries, getKey]
    rfl

/-- C9 witness: the amended statement evaluated on an order whose
`grand_total` and `subtotal` are 0 and an item whose `price` is 0. -/
theorem C9_witness :
    getKey (order_to_dict orderZero) "grand_total" = some JVal.null
    ∧ getKey (item_to_dict itemZero) "price" = some JVal.null
    ∧ getKey (order_to_dict orderZero) "subtotal" = some (JVal.s "0") :=
  ⟨(C9_amended orderZero itemZero).1 rfl,
   (C9_amended orderZero itemZero).2.1 rfl,
   (C9_amended orderZero itemZero).2.2 rfl⟩

/-- C3 (amended): the optional-field loop does omit absent fields and
stringifies present ones, but the claim's "zero optional keys present"
fails elsewhere: `order_placed_date` and `grand_total` are always
emitted (null when absent), and every item dictionary always carries
`price`, `link`, `seller`, `condition` keys with null standing in for
absent values. Present values serialize as strings (`str(value)` for
loop fields and truthy monetary values; provider strings pass through). -/
theorem C3_amended (o : Order) (it : Item) (nm : String) (v : Option Int)
    (hmem : (nm, v) ∈ optionalFieldVals o) :
    (v = none → getKey (order_to_dict o) nm = none)
    ∧ (∀ x : Int, v = some x → getKey (order_to_dict o) nm = some (JVal.s (toString x)))
    ∧ (o.grand_total = none → getKey (order_to_dict o) "grand_total" = some JVal.null)
    ∧ (o.order_placed_date = none →
        getKey (order_to_dict o) "order_placed_date" = some JVal.null)
    ∧ (∀ g : Int, o.grand_total = some g → g ≠ 0 →
        getKey (order_to_dict o) "grand_total" = some (JVal.s (toString g)))
    ∧ (it.price = none → getKey (item_to_dict it) "price" = some JVal.null)
    ∧ (it.link = none → getKey (item_to_dict it) "link" = some JVal.null)
    ∧ (it.seller = none → getKey (item_to_dict it) "seller" = some JVal.null)
    ∧ (it.condition = none → getKey (item_to_dict it) "condition" = some JVal.null)
    ∧ (∀ l : String, it.link = some l →
        getKey (item_to_dict it) "link" = some (JVal.s l))
    ∧ (∀ c : String, it.condition = some c →
        getKey (item_to_dict it) "condition" = some (JVal.s c)) := by
  have hopt : (v = none → getKey (order_to_dict o) nm = none)
      ∧ (∀ x : Int, v = some x →
          getKey (order_to_dict o) nm = some (JVal.s (toString x))) := by
    simp [optionalFieldVals, Prod.mk.injEq] at hmem
    rcases hmem with ⟨h1, h2⟩ | ⟨h1, h2⟩ | ⟨h1, h2⟩ | ⟨h1, h2⟩ | ⟨h1, h2⟩ |
      ⟨h1, h2⟩ | ⟨h1, h2⟩ | ⟨h1, h2⟩ | ⟨h1, h2⟩ | ⟨h1, h2⟩ | ⟨h1, h2⟩ |
      ⟨h1, h2⟩ | ⟨h1, h2⟩ | ⟨h1, h2⟩ <;>
    subst h1 <;> subst h2 <;>
    refine ⟨fun hv => ?_, fun x hv => ?_⟩ <;>
    rw [getKey_order_full, getKey_recipientEntries _ _ (by rfl),
        getKey_itemsEntries _ _ (by rfl)] <;>
    simp [optionalFieldVals, List.find?, hv, baseEntries, getKey]
  refine ⟨hopt.1, hopt.2, fun hv => ?_, fun hv => ?_, fun g hv hg => ?_,
    fun hv => ?_, fun hv => ?_, fun hv => ?_, fun hv => ?_,
    fun l hv => ?_, fun c hv => ?_⟩
  · rw [show getKey (order_to_dict o) "grand_total" = some (moneyJ o.grand_total)
        from rfl, hv]
    rfl
  · rw [show getKey (order_to_dict o) "order_placed_date"
        = some (optStrJ o.order_placed_date) from rfl, hv]
    rfl
  · rw [show getKey (order_to_dict o) "grand_total" = some (moneyJ o.grand_total)
        from rfl, hv]
    have hg' : (g != 0) = true := by simpa using hg
    simp [moneyJ, hg']
  · rw [show getKey (item_to_dict it) "price" = some (moneyJ it.price) from rfl, hv]
    rfl
  · rw [show getKey (item_to_dict it) "link" = some (optStrJ it.link) from rfl, hv]
    rfl
  · rw [show getKey (item_to_dict it) "seller"
        = some (match it.seller with
                | some sl => optStrJ sl.name
                | none => JVal.null) from rfl, hv]
  · rw [show getKey (item_to_dict it) "condition" = some (optStrJ it.condition)
        from rfl, hv]
    rfl
  · rw [show getKey (item_to_dict it) "link" = some (optStrJ it.link) from rfl, hv]
    rfl
  · rw [show getKey (item_to_dict it) "condition" = some (optStrJ it.condition)
        from rfl, hv]
    rfl

/-- Order with several optional fields present, for the C3 witness. -/
def orderRich : Order :=
  { mkOrder "333-1111111-2222222" none with
      subtotal := some 1999, grand_total := some 2099,
      order_placed_date := some "2024-05-01" }

/-- Item with all optional attributes present, for the C3 witness. -/
def itemRich : Item :=
  ⟨some "Gadget", some 999, 2, some "https://example.com/g",
   some ⟨some "GadgetCo"⟩, some "New"⟩

/-- C3 witness: the amended statement evaluated on concrete records —
a present `subtotal` serializes as a string, an absent `shipping_total`
key is omitted, and a present item `link` passes through as a string. -/
theorem C3_witness :
    getKey (order_to_dict orderRich) "subtotal" = some (JVal.s "1999")
    ∧ getKey (order_to_dict orderRich) "shipping_total" = none
    ∧ getKey (item_to_dict itemRich) "link" = some (JVal.s "https://example.com/g") :=
  ⟨(C3_amended orderRich itemRich "subtotal" (some 1999) (by decide)).2.1 1999 rfl,
   (C3_amended orderRich itemRich "shipping_total" none (by decide)).1 rfl,
   (C3_amended orderRich itemRich "subtotal" (some 1999) (by decide)).2.2.2.2.2.2.2.2.2.1
     "https://example.com/g" rfl⟩

/-! ### Session-machine lemmas -/

/-- `get_orders_client` with a cached client and no pending OTP returns
immediately without invoking the provider. -/
theorem goc_fast (env : Env) (script : ProviderScript) (otp : Option String)
    (debug : Bool) (st : ServerState) (h1 : st.clientSet = true)
    (h2 : st.pending_otp_request = false) :
    get_orders_client env script otp debug st = ⟨.ok (), st, 0⟩ := by
  unfold get_orders_client
  rw [h1, h2]
  rfl

/-- `get_orders_client` with no cached client and missing credentials
raises the config `ValueError` without invoking the provider. -/
theorem goc_fresh_config (env : Env) (script : ProviderScript) (otp : Option String)
    (debug : Bool) (st : ServerState) (hcs : st.clientSet = false)
    (hc : (truthyS env.username && truthyS env.password) = false) :
    get_orders_client env script otp debug st
      = ⟨.error (.valueError (configMsg env)), st, 0⟩ := by
  unfold get_orders_client
  rw [hcs]
  have h2 : (!truthyS env.username || !truthyS env.password) = true := by
    rw [← Bool.not_and, hc]
    rfl
  simp [h2]

/-- `get_orders_client` with no cached client and credentials present
invokes the provider's `login()` exactly once. -/
theorem goc_fresh_calls (env : Env) (script : ProviderScript) (otp : Option String)
    (debug : Bool) (st : ServerState) (hcs : st.clientSet = false)
    (hc : (truthyS env.username && truthyS env.password) = true) :
    (get_orders_client env script otp debug st).loginCalls = 1 := by
  obtain ⟨hu, hp⟩ := Bool.and_eq_true_iff.mp hc
  unfold get_orders_client
  rw [hcs, hu, hp]
  rcases hsl : sessionLogin script ⟨otp, false⟩ with ⟨h2, e⟩
  rcases e with _ | e'
  · simp [hsl]
  · rcases e' <;> simp [hsl]

/-- A fresh `get_orders_client` that returns the client succeeded at a
full provider login and leaves the fully-authenticated state. -/
theorem goc_fresh_ok (env : Env) (script : ProviderScript) (otp : Option String)
    (debug : Bool) (st : ServerState) (hcs : st.clientSet = false)
    (h : (get_orders_client env script otp debug st).result = Except.ok ()) :
    get_orders_client env script otp debug st
      = ⟨Except.ok (), ⟨true, true, false⟩, 1⟩ := by
  unfold get_orders_client at h ⊢
  cases hcred : (!truthyS env.username || !truthyS env.password) with
  | true => simp [hcs, hcred] at h
  | false =>
    rcases hsl : sessionLogin script ⟨otp, false⟩ with ⟨h2, e⟩
    rcases e with _ | e'
    · simp [hcs, hcred, hsl]
    · rcases e' <;> simp [hcs, hcred, hsl] at h

/-- A fresh `get_orders_client` whose provider interaction raises
`OTPRequiredError` leaves the OTP-pending state. -/
theorem goc_fresh_otp (env : Env) (script : ProviderScript) (otp : Option String)
    (debug : Bool) (st : ServerState) (hcs : st.clientSet = false)
    (hc : (truthyS env.username && truthyS env.password) = true)
    (h2 : MCPIOHandler) (m : String)
    (hsl : sessionLogin script ⟨otp, false⟩ = (h2, some (.otpRequiredError m))) :
    get_orders_client env script otp debug st
      = ⟨.error (.otpRequiredError m), ⟨true, false, true⟩, 1⟩ := by
  obtain ⟨hu, hp⟩ := Bool.and_eq_true_iff.mp hc
  unfold get_orders_client
  rw [hcs, hu, hp]
  simp [hsl, hcs]

/-- A fresh `get_orders_client` whose provider interaction raises a
non-OTP exception re-raises it; `_pending_otp_request` becomes true
exactly when the interceptor recorded an OTP request. -/
theorem goc_fresh_err (env : Env) (script : ProviderScript) (otp : Option String)
    (debug : Bool) (st : ServerState) (hcs : st.clientSet = false)
    (hc : (truthyS env.username && truthyS env.password) = true)
    (h2 : MCPIOHandler) (e : PyExc)
    (hsl : sessionLogin script ⟨otp, false⟩ = (h2, some e))
    (hne : ∀ m, e ≠ PyExc.otpRequiredError m) :
    get_orders_client env script otp debug st
      = ⟨.error e,
         ⟨true, false, st.pending_otp_request || h2.otp_requested⟩, 1⟩ := by
  obtain ⟨hu, hp⟩ := Bool.and_eq_true_iff.mp hc
  unfold get_orders_client
  rw [hcs, hu, hp]
  rcases e with m | m | m
  · exact absurd rfl (hne m)
  · simp [hsl, hcs]
  · simp [hsl, hcs]

/-- Facts about the config error message: it carries none of the other
classifiers' markers, it carries the `AMAZON_USERNAME` marker that
routes it to `CONFIG_ERROR`, and it marks a credential `NOT SET`
exactly when that credential is falsy. -/
theorem configMsg_cases (env : Env) :
    containsSub "Authentication attempts exhausted" (configMsg env) = false
    ∧ containsSub "OTP_REQUIRED" (configMsg env) = false
    ∧ containsSub "AMAZON_USERNAME" (configMsg env) = true
    ∧ (containsSub "username=NOT SET" (configMsg env) = !truthyS env.username)
    ∧ (containsSub "password=NOT SET" (configMsg env) = !truthyS env.password) := by
  cases hu : truthyS env.username <;> cases hp : truthyS env.password <;>
    simp [configMsg, setOrNot, hu, hp] <;> decide

/-- `_handle_auth_error` classifies the missing-credential `ValueError`
as `CONFIG_ERROR`. -/
theorem handle_auth_error_config (env : Env) :
    handle_auth_error (.valueError (configMsg env))
      = "CONFIG_ERROR: " ++ configMsg env := by
  have hcfg := configMsg_cases env
  unfold handle_auth_error
  simp [PyExc.msg, isOtpExc, hcfg.2.1, hcfg.2.2.1]

/-- `_handle_auth_error` classifies `OTPRequiredError` as
`NOT_LOGGED_IN` guidance. -/
theorem handle_auth_error_otp (m : String) :
    handle_auth_error (.otpRequiredError m) = notLoggedInMsg := by
  unfold handle_auth_error
  simp [isOtpExc]

/-- Each query tool's provider-login count is the one of its
`get_orders_client` call. -/
theorem hist_calls (env : Env) (script : ProviderScript)
    (fetchH : HistoryQuery → Except String (List Order))
    (year : Option Int) (tf : Option String) (fd : Bool) (now : Int)
    (st : ServerState) :
    (amazon_get_order_history env script fetchH year tf fd now st).2.2
      = (get_orders_client env script none false st).loginCalls := by
  unfold amazon_get_order_history
  rcases hg : (get_orders_client env script none false st).result with e | u
  · simp [hg]
  · rcases hf : fetchH ⟨fd, resolveTimeSel tf year now⟩ with m | os <;> simp [hg, hf]

/-- `amazon_get_order`'s provider-login count is the one of its
`get_orders_client` call. -/
theorem getord_calls (env : Env) (script : ProviderScript)
    (fetchO : String → Except String Order) (oid : String) (st : ServerState) :
    (amazon_get_order env script fetchO oid st).2.2
      = (get_orders_client env script none false st).loginCalls := by
  unfold amazon_get_order
  rcases hg : (get_orders_client env script none false st).result with e | u
  · simp [hg]
  · rcases hf : fetchO oid with m | o <;> simp [hg, hf]

/-- `amazon_search_orders`'s provider-login count is the one of its
`get_orders_client` call. -/
theorem search_calls (env : Env) (script : ProviderScript)
    (fetchH : HistoryQuery → Except String (List Order)) (term : String)
    (year : Option Int) (tf : Option String) (now : Int) (st : ServerState) :
    (amazon_search_orders env script fetchH term year tf now st).2.2
      = (get_orders_client env script none false st).loginCalls := by
  unfold amazon_search_orders
  rcases hg : (get_orders_client env script none false st).result with e | u
  · simp [hg]
  · rcases hf : fetchH ⟨true, resolveTimeSel tf year now⟩ with m | os <;> simp [hg, hf]

/-! ### Claim theorems: C1, C2, C4, C5, C6, C7, C8, C10 -/

/-- C1 (amended): a query operation invoked with no cached order client
does not merely report `NotAuthenticated` — it attempts a login itself.
With a credential missing, each of the three query tools returns the
`CONFIG_ERROR:` string with zero provider `login()` invocations; with
credentials set the provider's `login()` is invoked exactly once during
the query, and when that implicit login raises `OTPRequiredError` each
query tool returns the `NOT_LOGGED_IN` guidance. -/
theorem C1_amended (env : Env) (script : ProviderScript)
    (fetchH fetchB : HistoryQuery → Except String (List Order))
    (fetchO : String → Except String Order)
    (term oid : String) (year : Option Int) (tf : Option String)
    (fd : Bool) (now : Int) (st : ServerState)
    (hcs : st.clientSet = false) :
    ((truthyS env.username && truthyS env.password) = false →
      (amazon_get_order_history env script fetchH year tf fd now st).1
          = ToolResult.str ("CONFIG_ERROR: " ++ configMsg env)
      ∧ (amazon_get_order_history env script fetchH year tf fd now st).2.2 = 0
      ∧ (amazon_get_order env script fetchO oid st).1
          = ToolResult.str ("CONFIG_ERROR: " ++ configMsg env)
      ∧ (amazon_get_order env script fetchO oid st).2.2 = 0
      ∧ (amazon_search_orders env script fetchB term year tf now st).1
          = ToolResult.str ("CONFIG_ERROR: " ++ configMsg env)
      ∧ (amazon_search_orders env script fetchB term year tf now st).2.2 = 0)
    ∧ ((truthyS env.username && truthyS env.password) = true →
      (amazon_get_order_history env script fetchH year tf fd now st).2.2 = 1
      ∧ (amazon_get_order env script fetchO oid st).2.2 = 1
      ∧ (amazon_search_orders env script fetchB term year tf now st).2.2 = 1
      ∧ (∀ h2 m,
          sessionLogin script ⟨none, false⟩ = (h2, some (PyExc.otpRequiredError m)) →
          (amazon_get_order_history env script fetchH year tf fd now st).1
            = ToolResult.str notLoggedInMsg
          ∧ (amazon_get_order env script fetchO oid st).1
            = ToolResult.str notLoggedInMsg
          ∧ (amazon_search_orders env script fetchB term year tf now st).1
            = ToolResult.str notLoggedInMsg)) := by
  constructor
  · intro hc
    have hg := goc_fresh_config env script none false st hcs hc
    have hh := handle_auth_error_config env
    unfold amazon_get_order_history amazon_get_order amazon_search_orders
    simp only [hg, hh]
    exact ⟨trivial, trivial, trivial, trivial, trivial, trivial⟩
  · intro hc
    have hcalls := goc_fresh_calls env script none false st hcs hc
    refine ⟨?_, ?_, ?_, ?_⟩
    · rw [hist_calls]; exact hcalls
    · rw [getord_calls]; exact hcalls
    · rw [search_calls]; exact hcalls
    · intro h2 m hsl
      have hg := goc_fresh_otp env script none false st hcs hc h2 m hsl
      have hh := handle_auth_error_otp m
      unfold amazon_get_order_history amazon_get_order amazon_search_orders
      simp only [hg, hh]
      exact ⟨trivial, trivial, trivial⟩

/-- C1 witness: the amended statement evaluated at a missing-password
environment (CONFIG_ERROR, zero provider logins) and at a
full-credential environment with an OTP-prompting provider
(NOT_LOGGED_IN on all three tools). -/
theorem C1_witness :
    ((amazon_get_order_history envNoPass scriptOk (fun _ => Except.ok []) none none
        false 2024 st0).1 = ToolResult.str ("CONFIG_ERROR: " ++ configMsg envNoPass)
      ∧ (amazon_search_orders envNoPass scriptOk (fun _ => Except.ok []) "t" none none
          2024 st0).2.2 = 0)
    ∧ (amazon_get_order_history envFull scriptOtp (fun _ => Except.ok []) none none
        false 2024 st0).1 = ToolResult.str notLoggedInMsg
    ∧ (amazon_get_order envFull scriptOtp (fun _ => Except.error "unused") "o"
        st0).1 = ToolResult.str notLoggedInMsg :=
  ⟨⟨((C1_amended envNoPass scriptOk (fun _ => Except.ok []) (fun _ => Except.ok [])
      (fun _ => Except.error "unused") "t" "o" none none false 2024 st0 rfl).1 rfl).1,
    ((C1_amended envNoPass scriptOk (fun _ => Except.ok []) (fun _ => Except.ok [])
      (fun _ => Except.error "unused") "t" "o" none none false 2024 st0 rfl).1
        rfl).2.2.2.2.2⟩,
   (((C1_amended envFull scriptOtp (fun _ => Except.ok []) (fun _ => Except.ok [])
      (fun _ => Except.error "unused") "t" "o" none none false 2024 st0 rfl).2 rfl).2.2.2
      ⟨none, true⟩ "OTP_REQUIRED" rfl).1,
   (((C1_amended envFull scriptOtp (fun _ => Except.ok []) (fun _ => Except.ok [])
      (fun _ => Except.error "unused") "t" "o" none none false 2024 st0 rfl).2 rfl).2.2.2
      ⟨none, true⟩ "OTP_REQUIRED" rfl).2.1⟩

/-- C2 (amended): the tool boundary catches only the authentication
phase — any `get_orders_client` exception is converted to a structured
string by `_handle_auth_error` — while a provider failure during order
retrieval (called outside the `try` block) escapes the tool as an
exception; an escape can come only from the retrieval call. -/
theorem C2_amended (env : Env) (script : ProviderScript)
    (fetchO : String → Except String Order)
    (fetchH : HistoryQuery → Except String (List Order)) (oid : String)
    (year : Option Int) (tf : Option String) (fd : Bool) (now : Int)
    (st : ServerState) :
    (∀ e, (get_orders_client env script none false st).result = Except.error e →
      (amazon_get_order env script fetchO oid st).1
          = ToolResult.str (handle_auth_error e)
      ∧ (amazon_get_order_history env script fetchH year tf fd now st).1
          = ToolResult.str (handle_auth_error e))
    ∧ (∀ m, (amazon_get_order env script fetchO oid st).1 = ToolResult.raised m →
        fetchO oid = Except.error m)
    ∧ (∀ m, (amazon_get_order_history env script fetchH year tf fd now st).1
          = ToolResult.raised m →
        fetchH ⟨fd, resolveTimeSel tf year now⟩ = Except.error m) := by
  unfold amazon_get_order amazon_get_order_history
  rcases hg : (get_orders_client env script none false st).result with e | u
  · refine ⟨fun e' he' => ?_, fun m hm => ?_, fun m hm => ?_⟩
    · obtain rfl : e = e' := by injection he'
      simp [hg]
    · simp [hg] at hm
    · simp [hg] at hm
  · refine ⟨fun e' he' => ?_, fun m hm => ?_, fun m hm => ?_⟩
    · exact absurd he' (by simp)
    · rcases hf : fetchO oid with m' | o
      · simp [hg, hf] at hm
        subst hm
        rfl
      · simp [hg, hf] at hm
    · rcases hf : fetchH ⟨fd, resolveTimeSel tf year now⟩ with m' | os
      · simp [hg, hf] at hm
        subst hm
        rfl
      · simp [hg, hf] at hm

/-- C2 witness: the amended statement applied where retrieval fails —
the escaping exception is exactly the provider's. -/
theorem C2_witness :
    (fun _ => Except.error "boom" : String → Except String Order)
        "111-1234567-1234567" = Except.error "boom" :=
  (C2_amended envFull scriptOk (fun _ => Except.error "boom")
      (fun _ => Except.ok []) "111-1234567-1234567" none none false 2024
      stAuth).2.1 "boom" rfl

/-- C4 (amended): `amazon_login` with a missing credential returns the
generic `Login failed:` wrapper — not a `CONFIG_ERROR`-tagged string —
without contacting the provider, and the embedded message identifies
exactly which of the two credentials are unset (`username=NOT SET`
appears iff the username is unset, `password=NOT SET` iff the
password is unset). -/
theorem C4_amended (env : Env) (script : ProviderScript) (otp : Option String)
    (debug : Bool) (tb : String) (st : ServerState)
    (hc : (truthyS env.username && truthyS env.password) = false) :
    (amazon_login env script otp debug tb st).1
      = "Login failed: " ++ configMsg env ++ "\n\nTraceback:\n"
          ++ (if debug then tb else "")
    ∧ (amazon_login env script otp debug tb st).2.2 = 0
    ∧ (containsSub "username=NOT SET" (configMsg env) = !truthyS env.username)
    ∧ (containsSub "password=NOT SET" (configMsg env) = !truthyS env.password) := by
  have hcfg := configMsg_cases env
  have hg := goc_fresh_config env script otp debug
    { st with clientSet := false, sessionSet := false } rfl hc
  unfold amazon_login
  simp only [hg, PyExc.msg, hcfg.1]
  exact ⟨by simp, rfl, hcfg.2.2.2.1, hcfg.2.2.2.2⟩

/-- C4 witness: the amended statement at the three credential states,
with the markers evaluated. -/
theorem C4_witness :
    (amazon_login envNoUser scriptOk none false "" st0).1
      = "Login failed: " ++ configMsg envNoUser ++ "\n\nTraceback:\n" ++ ""
    ∧ containsSub "username=NOT SET" (configMsg envNoUser) = true
    ∧ containsSub "password=NOT SET" (configMsg envNoUser) = false
    ∧ containsSub "username=NOT SET" (configMsg envNoPass) = false
    ∧ containsSub "password=NOT SET" (configMsg envNoPass) = true
    ∧ containsSub "username=NOT SET" (configMsg envNone) = true
    ∧ containsSub "password=NOT SET" (configMsg envNone) = true :=
  ⟨(C4_amended envNoUser scriptOk none false "" st0 rfl).1,
   (C4_amended envNoUser scriptOk none false "" st0 rfl).2.2.1,
   (C4_amended envNoUser scriptOk none false "" st0 rfl).2.2.2,
   (C4_amended envNoPass scriptOk none false "" st0 rfl).2.2.1,
   (C4_amended envNoPass scriptOk none false "" st0 rfl).2.2.2,
   (C4_amended envNone scriptOk none false "" st0 rfl).2.2.1,
   (C4_amended envNone scriptOk none false "" st0 rfl).2.2.2⟩

/-- C5: a `login` whose provider interaction triggers the OTP prompt
pattern with no `otp_code` supplied sets `_pending_otp_request` and
returns the `OTP_REQUIRED` guidance; and any other provider failure
during which the interceptor recorded an OTP request also leaves
`_pending_otp_request = true` rather than a logged-out state. -/
theorem C5_otp_transitions (env : Env) (script : ProviderScript) (otp : Option String)
    (debug : Bool) (tb : String) (st : ServerState)
    (hc : (truthyS env.username && truthyS env.password) = true) :
    (∀ h2 m,
      sessionLogin script ⟨none, false⟩ = (h2, some (PyExc.otpRequiredError m)) →
      (amazon_login env script none debug tb st).1 = otpRequiredReply
      ∧ (amazon_login env script none debug tb st).2.1.pending_otp_request = true)
    ∧ (∀ h2 e, sessionLogin script ⟨otp, false⟩ = (h2, some e) →
        (∀ m, e ≠ PyExc.otpRequiredError m) → h2.otp_requested = true →
        (amazon_login env script otp debug tb st).2.1.pending_otp_request = true) := by
  constructor
  · intro h2 m hsl
    have hg := goc_fresh_otp env script none debug
      { st with clientSet := false, sessionSet := false } rfl hc h2 m hsl
    unfold amazon_login
    simp only [hg]
    exact ⟨trivial, trivial⟩
  · intro h2 e hsl hne hreq
    have hg := goc_fresh_err env script otp debug
      { st with clientSet := false, sessionSet := false } rfl hc h2 e hsl hne
    unfold amazon_login
    simp only [hg]
    rcases e with m | m | m
    · exact absurd rfl (hne m)
    · cases hcond : containsSub "Authentication attempts exhausted" m <;>
        simp [PyExc.msg, hcond, hreq]
    · cases hcond : containsSub "Authentication attempts exhausted" m <;>
        simp [PyExc.msg, hcond, hreq]

/-- C5 witness: the theorem applied to a provider that prompts for an
OTP with no code supplied (first part), and to a provider that prompts,
receives the supplied code, then fails generically (second part). -/
theorem C5_witness :
    ((amazon_login envFull scriptOtp none false "" st0).1 = otpRequiredReply
      ∧ (amazon_login envFull scriptOtp none false "" st0).2.1.pending_otp_request
          = true)
    ∧ (amazon_login envFull scriptOtpFail (some "123456") false ""
          st0).2.1.pending_otp_request = true :=
  ⟨(C5_otp_transitions envFull scriptOtp none false "" st0 rfl).1 ⟨none, true⟩
      "OTP_REQUIRED" rfl,
   (C5_otp_transitions envFull scriptOtpFail (some "123456") false "" st0 rfl).2
      ⟨some "123456", true⟩ (PyExc.other "login flow broke") rfl
      (fun _ hne => PyExc.noConfusion hne) rfl⟩

/-- C6: an OTP-pattern prompt (case-insensitive substring "otp",
"code", or "verification") is answered with the supplied truthy OTP
code, or raises `OTPRequiredError` when none is stored; any other
prompt raises `ValueError` carrying the message. -/
theorem C6_prompt_contract (h : MCPIOHandler) (msg : String) :
    (isOtpMsg msg = true → ∀ c, h.otp_code = some c → c ≠ "" →
      MCPIOHandler.prompt h msg
        = ({ h with otp_requested := true }, PromptOutcome.answer c))
    ∧ (isOtpMsg msg = true → h.otp_code = none →
      MCPIOHandler.prompt h msg
        = ({ h with otp_requested := true },
           PromptOutcome.raiseExc (PyExc.otpRequiredError "OTP_REQUIRED")))
    ∧ (isOtpMsg msg = false →
      MCPIOHandler.prompt h msg
        = (h, PromptOutcome.raiseExc
            (PyExc.valueError ("Interactive prompt required: " ++ msg)))) := by
  refine ⟨fun hm c hcode hne => ?_, fun hm hnone => ?_, fun hm => ?_⟩
  · have hcb : (c != "") = true := by simpa using hne
    simp [MCPIOHandler.prompt, hm, hcode, hcb]
  · simp [MCPIOHandler.prompt, hm, hnone]
  · simp [MCPIOHandler.prompt, hm]

/-- C6 witness: the three prompt behaviours, each at a concrete
message and handler. -/
theorem C6_witness :
    MCPIOHandler.prompt ⟨some "123456", false⟩ "Enter the OTP sent to your device"
      = (⟨some "123456", true⟩, PromptOutcome.answer "123456")
    ∧ MCPIOHandler.prompt ⟨none, false⟩ "Enter your verification code"
      = (⟨none, true⟩, PromptOutcome.raiseExc (PyExc.otpRequiredError "OTP_REQUIRED"))
    ∧ MCPIOHandler.prompt ⟨some "123456", false⟩ "Solve this puzzle to continue"
      = (⟨some "123456", false⟩, PromptOutcome.raiseExc
          (PyExc.valueError
            ("Interactive prompt required: Solve this puzzle to continue"))) :=
  ⟨(C6_prompt_contract ⟨some "123456", false⟩ "Enter the OTP sent to your device").1
      rfl "123456" rfl (by decide),
   (C6_prompt_contract ⟨none, false⟩ "Enter your verification code").2.1 rfl rfl,
   (C6_prompt_contract ⟨some "123456", false⟩ "Solve this puzzle to continue").2.2 rfl⟩

/-- C10: an interceptor constructed with an empty-string OTP code
treats every OTP-pattern prompt exactly like one with no code at all:
it raises `OTPRequiredError` instead of answering with "". -/
theorem C10_empty_otp (msg : String) (hm : isOtpMsg msg = true) :
    MCPIOHandler.prompt ⟨some "", false⟩ msg
      = (⟨some "", true⟩, PromptOutcome.raiseExc (PyExc.otpRequiredError "OTP_REQUIRED"))
    ∧ (MCPIOHandler.prompt ⟨some "", false⟩ msg).2
      = (MCPIOHandler.prompt ⟨none, false⟩ msg).2 := by
  constructor
  · simp [MCPIOHandler.prompt, hm]
  · simp [MCPIOHandler.prompt, hm]

/-- C10 witness: the empty-code interceptor on a concrete OTP-pattern
message. -/
theorem C10_witness :
    MCPIOHandler.prompt ⟨some "", false⟩ "A verification is required"
      = (⟨some "", true⟩,
         PromptOutcome.raiseExc (PyExc.otpRequiredError "OTP_REQUIRED")) :=
  (C10_empty_otp "A verification is required" rfl).1

/-- An item matches the search exactly when it has a truthy title that
contains the lowered term. -/
theorem itemMatches_iff (sl : String) (i : Item) :
    itemMatches sl i = true
      ↔ ∃ t, i.title = some t ∧ t ≠ "" ∧ containsSub sl (lowerStr t) = true := by
  unfold itemMatches
  cases ht : i.title with
  | none => simp
  | some t => simp [ht]

/-- C7: the search tool's provider query always carries
`full_details = true` (its behaviour depends only on the fetch
function's values at full-detail queries); the result is exactly the
full fixture orders, in order, filtered by "some item title contains
the term case-insensitively". -/
theorem C7_search_contract (env : Env) (script : ProviderScript)
    (fetchH : HistoryQuery → Except String (List Order))
    (term : String) (year : Option Int) (tf : Option String) (now : Int)
    (st : ServerState) (orders : List Order)
    (hauth : (get_orders_client env script none false st).result = Except.ok ())
    (hf : fetchH ⟨true, resolveTimeSel tf year now⟩ = Except.ok orders) :
    (amazon_search_orders env script fetchH term year tf now st).1
      = ToolResult.json (JVal.arr
          ((orders.filter (orderMatches (lowerStr term))).map
            (fun o => JVal.obj (order_to_dict o))))
    ∧ (∀ o ∈ orders, orderMatches (lowerStr term) o = true ↔
        ∃ i ∈ o.items.getD [], ∃ t, i.title = some t ∧ t ≠ ""
          ∧ containsSub (lowerStr term) (lowerStr t) = true)
    ∧ (∀ fetchB : HistoryQuery → Except String (List Order),
        (∀ q, q.full_details = true → fetchB q = fetchH q) →
        amazon_search_orders env script fetchB term year tf now st
          = amazon_search_orders env script fetchH term year tf now st) := by
  refine ⟨?_, ?_, ?_⟩
  · unfold amazon_search_orders
    simp only [hauth, hf]
  · intro o _
    unfold orderMatches
    cases hi : o.items with
    | none => simp
    | some its =>
      cases its with
      | nil => simp
      | cons a t => simp [List.any_eq_true, itemMatches_iff]
  · intro fetchB hfb
    unfold amazon_search_orders
    rw [hfb ⟨true, resolveTimeSel tf year now⟩ rfl]

/-- C7 witness: the spec's fixture — three orders, one containing an
item titled "Wireless Headphones", searched with the upper-case term
"HEADPHONES" — returns exactly that one full order. -/
theorem C7_witness :
    (amazon_search_orders envFull scriptOk (fun _ => Except.ok searchFixture)
        "HEADPHONES" (some 2024) none 2025 stAuth).1
      = ToolResult.json (JVal.arr
          ((searchFixture.filter (orderMatches (lowerStr "HEADPHONES"))).map
            (fun o => JVal.obj (order_to_dict o)))) :=
  (C7_search_contract envFull scriptOk (fun _ => Except.ok searchFixture) "HEADPHONES"
      (some 2024) none 2025 stAuth searchFixture rfl rfl).1

/-- C8: once a login has succeeded (the fresh `get_orders_client` call
made by `amazon_login` returned the client), the tool reports success,
the state is fully authenticated, and every subsequent
`get_orders_client` check — with any environment, provider, or code —
returns the cached client immediately with zero further provider
`login()` invocations. -/
theorem C8_fast_path (env env2 : Env) (script script2 : ProviderScript)
    (otp otp2 : Option String) (debug debug2 : Bool) (tb : String)
    (st : ServerState)
    (h : (get_orders_client env script otp debug
        { st with clientSet := false, sessionSet := false }).result
          = Except.ok ()) :
    (amazon_login env script otp debug tb st).1 = "Successfully logged in to Amazon."
    ∧ (amazon_login env script otp debug tb st).2.1 = ⟨true, true, false⟩
    ∧ get_orders_client env2 script2 otp2 debug2
        (amazon_login env script otp debug tb st).2.1
      = ⟨Except.ok (), ⟨true, true, false⟩, 0⟩ := by
  have hg := goc_fresh_ok env script otp debug
    { st with clientSet := false, sessionSet := false } rfl h
  unfold amazon_login
  simp only [hg]
  exact ⟨trivial, trivial, goc_fast env2 script2 otp2 debug2 ⟨true, true, false⟩ rfl rfl⟩

/-- C8 witness: after one successful login, a repeated authentication
check returns the cached client with zero provider logins. -/
theorem C8_witness :
    (amazon_login envFull scriptOk none false "" st0).1
      = "Successfully logged in to Amazon."
    ∧ get_orders_client envFull scriptOk none false
        (amazon_login envFull scriptOk none false "" st0).2.1
      = ⟨Except.ok (), ⟨true, true, false⟩, 0⟩ :=
  ⟨(C8_fast_path envFull envFull scriptOk scriptOk none none false false "" st0 rfl).1,
   (C8_fast_path envFull envFull scriptOk scriptOk none none false false "" st0 rfl).2.2⟩
